import Mathlib

/-!
# Verification of the Shutter-Thoughts photography-blog script

Shallow embedding of `src/script.js`: the theme manager, the gallery
manager (filtering, upload validation, likes, view modal), the saved-likes
restore step of the page-load handler, and the `optimizeImage` helper.
Browser state (DOM attributes, element styles, `localStorage`) is made
explicit as record fields; event-driven code becomes step functions over
those records.
-/

namespace ShutterThoughts

/-! ## JavaScript helpers

`x || d` on a string read from storage yields `d` when `x` is `null`
(modelled as `none`) or the empty string (both falsy). -/

/-- JS `s || d` for a possibly-null string `s`: `null` and `""` are falsy. -/
def jsOrString (o : Option String) (d : String) : String :=
  match o with
  | none => d
  | some s => if s = "" then d else s

/-- JS truthiness of a possibly-null string: `null` and `""` are falsy. -/
def jsTruthy (o : Option String) : Bool :=
  match o with
  | none => false
  | some s => s ≠ ""

/-! ## ThemeManager (`script.js` lines 34-82)

State: the persisted `localStorage` entry under key `theme`, the
`currentTheme` field, and the document-level `data-theme` attribute
(`none` before any apply). The constructor reads only `localStorage`
(`localStorage.getItem('theme') || 'light'`); the system color-scheme
preference is *not* consulted there, so `themeManagerInit` carries it as
a parameter that the source never uses. -/

structure ThemeState where
  /-- `localStorage.getItem('theme')`; `none` when the key is unset. -/
  stored : Option String
  /-- the `currentTheme` field of the manager. -/
  current : String
  /-- the document `data-theme` attribute; `none` before the first apply. -/
  applied : Option String
  deriving Repr, DecidableEq

/-- `applyTheme(theme)`: sets the `data-theme` attribute and writes the
theme to `localStorage` (lines 46-50). -/
def applyTheme (st : ThemeState) (theme : String) : ThemeState :=
  { st with applied := some theme, stored := some theme }

/-- Constructor plus `init()` (lines 35-44): `currentTheme` is
`localStorage.getItem('theme') || 'light'`, then `applyTheme` runs on it.
`sysPrefersDark` is the `prefers-color-scheme: dark` media state at load
time; the source constructor never reads it. -/
def themeManagerInit (stored0 : Option String) (sysPrefersDark : Bool) : ThemeState :=
  let _ := sysPrefersDark
  let current := jsOrString stored0 "light"
  applyTheme { stored := stored0, current := current, applied := none } current

/-- Events the bound listeners react to (lines 68-81): a click on the
theme toggle, and a system color-scheme preference change carrying the
new `matches` flag. -/
inductive ThemeEvent where
  | toggleClick
  | mediaChange (m : Bool)
  deriving Repr, DecidableEq

/-- `toggleTheme()` (lines 57-66): flips `currentTheme` between
`"dark"` and `"light"` and re-applies. -/
def toggleTheme (st : ThemeState) : ThemeState :=
  let c := if st.current = "dark" then "light" else "dark"
  applyTheme { st with current := c } c

/-- One listener dispatch. The media-change listener (lines 74-79) acts
only when `!localStorage.getItem('theme')`, i.e. when the stored entry is
absent or empty. -/
def themeStep (st : ThemeState) (e : ThemeEvent) : ThemeState :=
  match e with
  | .toggleClick => toggleTheme st
  | .mediaChange m =>
      if jsTruthy st.stored then st
      else
        let c := if m then "dark" else "light"
        applyTheme { st with current := c } c

/-- All states reachable from page load: init, then any sequence of
listener dispatches. -/
def themeRun (stored0 : Option String) (sysPrefersDark : Bool)
    (evs : List ThemeEvent) : ThemeState :=
  evs.foldl themeStep (themeManagerInit stored0 sysPrefersDark)

/-! ## File validation and upload (`script.js` lines 18-31, 165-232) -/

/-- A file as offered by the browser file picker: MIME type, size in
bytes, and its byte content (abstracted to a string). -/
structure JFile where
  type : String
  size : Nat
  content : String
  deriving Repr, DecidableEq

/-- The allow-list of line 19. -/
def allowedTypes : List String :=
  ["image/jpeg", "image/jpg", "image/png", "image/gif", "image/webp"]

/-- `10 * 1024 * 1024` bytes (line 20). -/
def maxSize : Nat := 10 * 1024 * 1024

/-- `validateImageFile` (lines 18-31): throws (modelled as `.error`) on a
type outside the allow-list or a size strictly above `maxSize`. -/
def validateImageFile (f : JFile) : Except String Bool :=
  if ¬ (allowedTypes.contains f.type) then
    .error "Invalid file type. Please upload JPEG, PNG, GIF, or WebP images only."
  else if f.size > maxSize then
    .error "File too large. Please upload images smaller than 10MB."
  else
    .ok true

/-- The style/content state of a `.photo-placeholder` element that
`handlePhotoUpload` mutates. -/
structure Placeholder where
  backgroundImage : Option String
  backgroundSize : Option String
  backgroundPosition : Option String
  innerHTML : String
  color : Option String
  deriving Repr, DecidableEq

/-- Outcome of the file-picker interaction awaited on lines 172-193:
a chosen file, a `change` event with no file, or a `cancel` event. -/
inductive PickerResult where
  | chosen (f : JFile)
  | noFile
  | cancelled
  deriving Repr, DecidableEq

/-- Models `FileReader.readAsDataURL`: the file bytes as a data URI. -/
def readAsDataURL (f : JFile) : String :=
  "data:" ++ f.type ++ ";base64," ++ f.content

/-- `displayUploadedPhoto` (lines 220-232): paints the data URI as the
placeholder background and clears its content. -/
def displayUploadedPhoto (p : Placeholder) (imageSrc : String) : Placeholder :=
  { p with
    backgroundImage := some ("url(" ++ imageSrc ++ ")")
    backgroundSize := some "cover"
    backgroundPosition := some "center"
    innerHTML := ""
    color := some "transparent" }

/-- Outcome of the `FileReader.readAsDataURL` read of a validated file
(lines 202-213): the `load` event fires with the data URI, or the
`error` event fires. -/
inductive ReadOutcome where
  | success
  | failure
  deriving Repr, DecidableEq

/-- `handlePhotoUpload` (lines 165-218): on a chosen file run
`validateImageFile`; on a validation failure (or no file / cancel)
report the error message and leave the placeholder untouched. A valid
file is handed to a `FileReader`: on its `load` event the data URI is
painted (`displayUploadedPhoto`), on its `error` event the handler
reports `"Failed to read file. Please try again."` and paints nothing.
Returns the placeholder after the call and the reported error, if
any. -/
def handlePhotoUpload (p : Placeholder) (pick : PickerResult) (read : ReadOutcome) :
    Placeholder × Option String :=
  match pick with
  | .noFile => (p, some "No file selected")
  | .cancelled => (p, some "Upload cancelled")
  | .chosen f =>
      match validateImageFile f with
      | .error msg => (p, some msg)
      | .ok _ =>
          match read with
          | .success => (displayUploadedPhoto p (readAsDataURL f), none)
          | .failure => (p, some "Failed to read file. Please try again.")

/-- The validity condition of `validateImageFile`, as a Boolean over
picker outcomes. -/
def validPick : PickerResult → Bool
  | .chosen f => allowedTypes.contains f.type && f.size ≤ maxSize
  | .noFile => false
  | .cancelled => false

/-! ## JS `parseInt` and integer-to-string conversion

`handleLike` (line 256) reads the like count with
`parseInt(likesElement.textContent) || 0` and writes it back (lines 259,
700) as the template string `` `${n} likes` ``. We model `parseInt`
with no radix argument: skip leading whitespace, an optional sign, an
optional `0x`/`0X` hex prefix, then the longest run of digits; `NaN`
(no digit consumed) is `none`. Non-ASCII whitespace is not modelled. -/

/-- The common JS `StrWhiteSpace` characters. -/
def isJsSpace (c : Char) : Bool :=
  c = ' ' || c = '\t' || c = '\n' || c = '\r' || c = '\x0b' || c = '\x0c'

/-- Decimal digit value of a character, `none` for a non-digit. -/
def decDigitVal (c : Char) : Option Nat :=
  if '0' ≤ c ∧ c ≤ '9' then some (c.toNat - 48) else none

/-- Hexadecimal digit value of a character, `none` for a non-hex-digit. -/
def hexDigitVal (c : Char) : Option Nat :=
  if '0' ≤ c ∧ c ≤ '9' then some (c.toNat - 48)
  else if 'a' ≤ c ∧ c ≤ 'f' then some (c.toNat - 97 + 10)
  else if 'A' ≤ c ∧ c ≤ 'F' then some (c.toNat - 65 + 10)
  else none

/-- Greedy digit accumulation: consume digits while `dval` accepts,
folding into the accumulator. -/
def parseDigitsGo (dval : Char → Option Nat) (radix : Nat) : Nat → List Char → Nat
  | acc, [] => acc
  | acc, c :: rest =>
      match dval c with
      | some d => parseDigitsGo dval radix (acc * radix + d) rest
      | none => acc

/-- Longest digit prefix; `none` when the first character is not a digit
(JS `NaN`). -/
def parseDigitsList (dval : Char → Option Nat) (radix : Nat) (cs : List Char) : Option Nat :=
  match cs with
  | [] => none
  | c :: _ =>
      match dval c with
      | some _ => some (parseDigitsGo dval radix 0 cs)
      | none => none

/-- Whether the input starts with the JS hex prefix `0x`/`0X`. -/
def hasHexPrefix (cs : List Char) : Bool :=
  match cs with
  | c₀ :: x :: _ => c₀ = '0' && (x = 'x' || x = 'X')
  | _ => false

/-- Unsigned part of `parseInt`: an optional `0x`/`0X` prefix selects hex,
otherwise decimal. -/
def parseUnsigned (cs : List Char) : Option Nat :=
  if hasHexPrefix cs then parseDigitsList hexDigitVal 16 (cs.drop 2)
  else parseDigitsList decDigitVal 10 cs

/-- Sign handling of `parseInt`, after whitespace was skipped. -/
def parseIntCore (cs : List Char) : Option Int :=
  match cs with
  | [] => none
  | c :: rest =>
      if c = '-' then (parseUnsigned rest).map (fun n : Nat => -(n : Int))
      else if c = '+' then (parseUnsigned rest).map (fun n : Nat => (n : Int))
      else (parseUnsigned (c :: rest)).map (fun n : Nat => (n : Int))

/-- `parseInt(s)` (no radix argument), as `none` for `NaN`. -/
def parseIntJS (s : String) : Option Int :=
  parseIntCore (s.data.dropWhile isJsSpace)

/-- JS `x || 0` on the result of `parseInt`: `NaN` and `0` (and `-0`)
are falsy and give `0`; any other number is itself. -/
def jsOrZero (o : Option Int) : Int :=
  match o with
  | none => 0
  | some v => if v = 0 then 0 else v

/-- Decimal digit character. -/
def digitChar (d : Nat) : Char := Char.ofNat (48 + d)

/-- Fuel-driven most-significant-first decimal digits of a natural
number; total and kernel-reducible. Callers supply `fuel > n`. -/
def toDecAux : Nat → Nat → List Char
  | 0, _ => []
  | fuel + 1, n =>
      if n < 10 then [digitChar n]
      else toDecAux fuel (n / 10) ++ [digitChar (n % 10)]

/-- Decimal digits of a natural number, most significant first. -/
def natToChars (n : Nat) : List Char := toDecAux (n + 1) n

/-- JS number-to-string for an integral value: minus sign for negatives,
then decimal digits. -/
def intToString (i : Int) : String :=
  if i < 0 then ⟨'-' :: natToChars i.natAbs⟩ else ⟨natToChars i.natAbs⟩

/-- The template string `` `${n} likes` `` written into
`likesElement.textContent` (lines 259 and 700). -/
def mkLikesText (i : Int) : String := intToString i ++ " likes"

/-! ## Gallery filtering (`script.js` lines 124-139) -/

/-- The per-entry state `filterPhotos` touches: the `data-category`
attribute, the `hidden` class, and the inline `style.animation`. -/
structure PhotoItem where
  category : String
  hidden : Bool
  animation : String
  deriving Repr, DecidableEq

/-- The body of the `forEach` in `filterPhotos` for one entry. -/
def filterOne (filter : String) (item : PhotoItem) : PhotoItem :=
  if filter = "all" ∨ item.category = filter then
    { item with hidden := false, animation := "fadeInUp 0.5s ease forwards" }
  else
    { item with hidden := true, animation := "fadeOutDown 0.3s ease forwards" }

/-- `filterPhotos(filter)` over the page's photo entries. -/
def filterPhotos (filter : String) (items : List PhotoItem) : List PhotoItem :=
  items.map (filterOne filter)

/-- A sequence of `filterPhotos` calls, applied in order. -/
def filterSeq (fs : List String) (items : List PhotoItem) : List PhotoItem :=
  fs.foldl (fun its f => filterPhotos f its) items

/-! ## Likes (`script.js` lines 253-272) and the saved-likes restore
(lines 693-702)

The `photoLikes` storage entry is a JSON object mapping photo title to
count; we model it as an association list in insertion order, which is
also the order `Object.entries` iterates. -/

/-- First-match lookup in the like-count map. -/
def lookupLikes : List (String × Int) → String → Option Int
  | [], _ => none
  | (k, v) :: rest, t => if k = t then some v else lookupLikes rest t

/-- JS `obj[k] = v` on the like-count map: overwrite in place, or append
a fresh key at the end. -/
def setLikes : List (String × Int) → String → Int → List (String × Int)
  | [], t, v => [(t, v)]
  | (k, w) :: rest, t, v =>
      if k = t then (k, v) :: rest else (k, w) :: setLikes rest t v

/-- The state `handleLike` reads and writes for one photo entry: the
`.photo-likes` text, the `h3` title used as storage key, and the
`photoLikes` map. -/
structure LikeState where
  likesText : String
  title : String
  storage : List (String × Int)
  deriving Repr, DecidableEq

/-- `handleLike` (lines 253-272): parse the displayed count
(`parseInt(...) || 0`), add 1, write the new text, and store the new
count in the map under the photo's title. -/
def handleLike (st : LikeState) : LikeState :=
  let currentLikes := jsOrZero (parseIntJS st.likesText)
  let newLikes := currentLikes + 1
  { st with
    likesText := mkLikesText newLikes
    storage := setLikes st.storage st.title newLikes }

/-- A photo entry as the restore loop sees it: title heading and
likes text. -/
structure PhotoEntry where
  title : String
  likesText : String
  deriving Repr, DecidableEq

/-- One step of the restore loop (lines 694-702): find the first entry
with the given title and overwrite its likes text. -/
def restoreOne : List PhotoEntry → String → Int → List PhotoEntry
  | [], _, _ => []
  | e :: rest, t, v =>
      if e.title = t then { e with likesText := mkLikesText v } :: rest
      else e :: restoreOne rest t v

/-- The saved-likes restore on `DOMContentLoaded` (lines 693-702):
iterate the persisted map entries in order. -/
def restoreLikes (saved : List (String × Int)) (items : List PhotoEntry) : List PhotoEntry :=
  saved.foldl (fun its kv => restoreOne its kv.1 kv.2) items

/-! ## Photo modal (`script.js` lines 287-323)

`createPhotoModal` builds, via `innerHTML`, the fixed tree
`.photo-modal > .modal-backdrop > .modal-content > (.modal-close, img)`
and registers `closeModal` as a `click` listener on `.modal-close` and on
`.modal-backdrop`, and an `Escape` `keydown` listener on the
`.photo-modal` element itself. DOM `click` events bubble from the target
through its ancestors, so every listener on the propagation path fires
(nothing calls `stopPropagation`). A `keydown` starts at the focused
element; it passes through `.photo-modal` only when focus is inside the
modal (the `modal.focus()` on line 322 targets a `div` without
`tabindex` and does not move focus by itself). -/

/-- The nodes of the modal subtree. -/
inductive MNode where
  | modal
  | backdrop
  | content
  | closeBtn
  | img
  deriving Repr, DecidableEq

/-- Parent links of the modal subtree (the modal's own parent is
`document.body`, outside the subtree). -/
def mParent : MNode → Option MNode
  | .modal => none
  | .backdrop => some .modal
  | .content => some .backdrop
  | .closeBtn => some .content
  | .img => some .content

/-- Bubbling propagation path inside the modal subtree: the target, then
each `mParent` ancestor up to `.photo-modal`. -/
def propagationPath : MNode → List MNode
  | .modal => [.modal]
  | .backdrop => [.backdrop, .modal]
  | .content => [.content, .backdrop, .modal]
  | .closeBtn => [.closeBtn, .content, .backdrop, .modal]
  | .img => [.img, .content, .backdrop, .modal]

/-- Nodes carrying a `click` listener bound to `closeModal`
(lines 312-313). -/
def hasClickCloseListener (n : MNode) : Bool :=
  match n with
  | .closeBtn => true
  | .backdrop => true
  | _ => false

/-- A user action that can close an open modal: a click at some node of
the modal subtree, or pressing Escape while focus is at `focus`
(`none` when focus is outside the modal subtree). -/
inductive CloseAction where
  | clickAt (target : MNode)
  | escapeKey (focus : Option MNode)
  deriving Repr, DecidableEq

/-- How many times `closeModal` executes for one action: one per
`closeModal` listener on the propagation path. The `keydown` listener
sits on `.photo-modal`, which is on the path exactly when focus is in
the modal subtree. -/
def closeFirings : CloseAction → Nat
  | .clickAt target =>
      ((propagationPath target).filter hasClickCloseListener).length
  | .escapeKey none => 0
  | .escapeKey (some f) =>
      ((propagationPath f).filter (fun n => n = MNode.modal)).length

/-- Document state for the modal lifecycle: whether the `.photo-modal`
overlay is in the document, and how many `removeChild` calls have thrown
(`closeModal`, lines 305-310, removes unconditionally after its fade
timeout). -/
structure ModalDoc where
  overlayPresent : Bool
  removeErrors : Nat
  deriving Repr, DecidableEq

/-- One execution of `closeModal`: remove the overlay if present,
otherwise the `removeChild` throws. -/
def runCloseModal (d : ModalDoc) : ModalDoc :=
  if d.overlayPresent then { d with overlayPresent := false }
  else { d with removeErrors := d.removeErrors + 1 }

/-- Document state after a freshly opened modal (overlay present) sees
one user action: `closeModal` runs once per fired listener. -/
def afterCloseAction (a : CloseAction) : ModalDoc :=
  Nat.iterate runCloseModal (closeFirings a) { overlayPresent := true, removeErrors := 0 }

/-! ## `optimizeImage` (`script.js` lines 651-664)

Numbers are modelled as rationals; the claims at issue are the algebraic
relations between the scale ratio and the dimensions. Canvas integer
coercion of the assigned dimensions is not modelled. -/

/-- A decoded image: natural width and height. -/
structure DecodedImage where
  width : ℚ
  height : ℚ
  deriving Repr, DecidableEq

/-- The output of `canvas.toBlob(resolve, 'image/jpeg', quality)` after
drawing at the scaled size. -/
structure OptimizedBlob where
  width : ℚ
  height : ℚ
  mimeType : String
  quality : ℚ
  deriving Repr, DecidableEq

/-- The scale ratio of line 655: `Math.min(maxWidth / img.width,
maxWidth / img.height)`. -/
def optimizeRatio (img : DecodedImage) (maxWidth : ℚ) : ℚ :=
  min (maxWidth / img.width) (maxWidth / img.height)

/-- `optimizeImage(file, maxWidth = 1200, quality = 0.8)` after the image
decodes to `img` (lines 654-660): scale both dimensions by
`optimizeRatio` and encode as JPEG at `quality`. -/
def optimizeImage (img : DecodedImage) (maxWidth : ℚ) (quality : ℚ) : OptimizedBlob :=
  let ratio := optimizeRatio img maxWidth
  { width := img.width * ratio
    height := img.height * ratio
    mimeType := "image/jpeg"
    quality := quality }

/-! ## Helper lemmas: digits, printing and parsing -/

theorem decDigitVal_digitChar (d : Nat) (hd : d < 10) :
    decDigitVal (digitChar d) = some d := by
  interval_cases d <;> decide

theorem isJsSpace_digitChar (d : Nat) (hd : d < 10) :
    isJsSpace (digitChar d) = false := by
  interval_cases d <;> decide

theorem digitChar_ne_minus (d : Nat) (hd : d < 10) : digitChar d ≠ '-' := by
  interval_cases d <;> decide

theorem digitChar_ne_plus (d : Nat) (hd : d < 10) : digitChar d ≠ '+' := by
  interval_cases d <;> decide

theorem digitChar_ne_zero (d : Nat) (hd : d < 10) (hpos : 1 ≤ d) :
    digitChar d ≠ '0' := by
  interval_cases d <;> first | omega | decide

/-- Greedy parsing consumes a printed digit block whole, shifting the
accumulator by one power of ten per digit. -/
theorem parseDigitsGo_toDecAux (fuel : Nat) :
    ∀ n acc rest, n < fuel →
      parseDigitsGo decDigitVal 10 acc (toDecAux fuel n ++ rest) =
        parseDigitsGo decDigitVal 10 (acc * 10 ^ (toDecAux fuel n).length + n) rest := by
  induction fuel with
  | zero => intro n _ _ h; omega
  | succ f ih =>
    intro n acc rest h
    by_cases h10 : n < 10
    · simp only [toDecAux, if_pos h10, List.singleton_append, List.length_singleton,
        pow_one, parseDigitsGo, decDigitVal_digitChar n h10]
    · have hdiv : n / 10 < n := Nat.div_lt_self (by omega) (by omega)
      have hf : n / 10 < f := by omega
      have hmod : n % 10 < 10 := Nat.mod_lt _ (by omega)
      simp only [toDecAux, if_neg h10, List.append_assoc, List.singleton_append]
      rw [ih (n / 10) acc (digitChar (n % 10) :: rest) hf]
      simp only [parseDigitsGo, decDigitVal_digitChar (n % 10) hmod,
        List.length_append, List.length_singleton, pow_succ]
      congr 1
      rw [← mul_assoc]
      generalize acc * 10 ^ (toDecAux f (n / 10)).length = B
      omega

/-- The printed digits of `n` start with a decimal digit, nonzero when
`n` is nonzero. -/
theorem toDecAux_head (fuel : Nat) :
    ∀ n, n < fuel →
      ∃ d t, toDecAux fuel n = digitChar d :: t ∧ d < 10 ∧ (0 < n → 1 ≤ d) := by
  induction fuel with
  | zero => intro n h; omega
  | succ f ih =>
    intro n h
    by_cases h10 : n < 10
    · exact ⟨n, [], by simp [toDecAux, h10], h10, fun h0 => h0⟩
    · have hdiv : n / 10 < n := Nat.div_lt_self (by omega) (by omega)
      obtain ⟨d, t, ht, hd, hpos⟩ := ih (n / 10) (by omega)
      refine ⟨d, t ++ [digitChar (n % 10)], ?_, hd, fun _ => hpos (by omega)⟩
      simp [toDecAux, h10, ht]

theorem hasHexPrefix_cons_of_ne_zero {c : Char} (h : c ≠ '0') (t : List Char) :
    hasHexPrefix (c :: t) = false := by
  cases t <;> simp [hasHexPrefix, h]

/-- Parsing the printed digits of a positive `n`, followed by
parse-stopping characters, recovers `n`. -/
theorem parseUnsigned_natToChars (n : Nat) (hn : 0 < n) (rest : List Char)
    (hrest : ∀ acc, parseDigitsGo decDigitVal 10 acc rest = acc) :
    parseUnsigned (natToChars n ++ rest) = some n := by
  obtain ⟨d, t, ht, hd, hpos⟩ := toDecAux_head (n + 1) n (Nat.lt_succ_self n)
  have hne0 : digitChar d ≠ '0' := digitChar_ne_zero d hd (hpos hn)
  have hcons : natToChars n ++ rest = digitChar d :: (t ++ rest) := by
    simp [natToChars, ht]
  rw [parseUnsigned, hcons, hasHexPrefix_cons_of_ne_zero hne0]
  simp only [Bool.false_eq_true, if_false, parseDigitsList, decDigitVal_digitChar d hd]
  rw [← hcons, natToChars, parseDigitsGo_toDecAux (n + 1) n 0 rest (Nat.lt_succ_self n),
    Nat.zero_mul, Nat.zero_add, hrest]

/-- No parsing progresses into `" likes"`. -/
theorem parseDigitsGo_likesSuffix (acc : Nat) :
    parseDigitsGo decDigitVal 10 acc (" likes".data) = acc := by
  have h : (" likes".data) = ' ' :: "likes".data := rfl
  rw [h, parseDigitsGo]
  have : decDigitVal ' ' = none := by decide
  simp [this]

/-- `parseInt` inverts the `` `${n} likes` `` template: the displayed
count reads back exactly. -/
theorem parseIntJS_mkLikesText (i : Int) : parseIntJS (mkLikesText i) = some i := by
  rcases lt_trichotomy i 0 with hneg | hz | hpos
  · have hm : 0 < i.natAbs := by omega
    have hdata : (mkLikesText i).data = '-' :: (natToChars i.natAbs ++ " likes".data) := by
      simp [mkLikesText, intToString, if_pos hneg, String.data_append]
    rw [parseIntJS, hdata]
    have hsp : isJsSpace '-' = false := by decide
    rw [List.dropWhile_cons_of_neg (by simp [hsp]), parseIntCore]
    rw [if_pos rfl, parseUnsigned_natToChars i.natAbs hm _ parseDigitsGo_likesSuffix]
    simp only [Option.map_some']
    congr 1
    omega
  · subst hz; decide
  · have hm : 0 < i.natAbs := by omega
    obtain ⟨d, t, ht, hd, hdpos⟩ := toDecAux_head (i.natAbs + 1) i.natAbs (Nat.lt_succ_self _)
    have hdpos1 : 1 ≤ d := hdpos hm
    have hdata : (mkLikesText i).data = natToChars i.natAbs ++ " likes".data := by
      simp [mkLikesText, intToString, if_neg (by omega : ¬ i < 0), String.data_append]
    have hcons : natToChars i.natAbs ++ " likes".data = digitChar d :: (t ++ " likes".data) := by
      simp [natToChars, ht]
    rw [parseIntJS, hdata, hcons,
      List.dropWhile_cons_of_neg (by simp [isJsSpace_digitChar d hd]), parseIntCore]
    rw [if_neg (by simpa using digitChar_ne_minus d hd),
      if_neg (by simpa using digitChar_ne_plus d hd), ← hcons,
      parseUnsigned_natToChars i.natAbs hm _ parseDigitsGo_likesSuffix]
    simp only [Option.map_some']
    congr 1
    omega

/-- `x || 0` on an actual number is that number. -/
theorem jsOrZero_some (v : Int) : jsOrZero (some v) = v := by
  by_cases h : v = 0 <;> simp [jsOrZero, h]

/-- Writing a key then reading it back yields the written value. -/
theorem lookupLikes_setLikes_self (m : List (String × Int)) (t : String) (v : Int) :
    lookupLikes (setLikes m t v) t = some v := by
  induction m with
  | nil => simp [setLikes, lookupLikes]
  | cons kv rest ih =>
    by_cases h : kv.1 = t
    · simp [setLikes, h, lookupLikes]
    · simp [setLikes, h, lookupLikes, ih]

/-! ## Helper lemmas: filtering -/

theorem filterOne_category (f : String) (it : PhotoItem) :
    (filterOne f it).category = it.category := by
  by_cases h : f = "all" ∨ it.category = f <;> simp [filterOne, h]

theorem filterOne_filterOne (f g : String) (it : PhotoItem) :
    filterOne f (filterOne g it) = filterOne f it := by
  by_cases hg : g = "all" ∨ it.category = g <;>
    by_cases hf : f = "all" ∨ it.category = f <;>
      simp [filterOne, hg, hf]

theorem filterPhotos_filterPhotos (f g : String) (items : List PhotoItem) :
    filterPhotos f (filterPhotos g items) = filterPhotos f items := by
  induction items with
  | nil => rfl
  | cons it rest ih =>
    simp only [filterPhotos, List.map_cons] at ih ⊢
    rw [filterOne_filterOne]
    exact congrArg _ (by simpa [filterPhotos] using ih)

theorem filterPhotos_filterSeq (f : String) (fs : List String) (items : List PhotoItem) :
    filterPhotos f (filterSeq fs items) = filterPhotos f items := by
  induction fs generalizing items with
  | nil => rfl
  | cons g fs ih =>
    show filterPhotos f (filterSeq fs (filterPhotos g items)) = _
    rw [ih, filterPhotos_filterPhotos]

/-! ## Helper lemmas: the saved-likes restore -/

/-- The one-entry update applied by the restore fold, per entry. -/
def applyEntry (e : PhotoEntry) (kv : String × Int) : PhotoEntry :=
  if e.title = kv.1 then { e with likesText := mkLikesText kv.2 } else e

/-- The whole restore fold, per entry. -/
def applySaved (saved : List (String × Int)) (e : PhotoEntry) : PhotoEntry :=
  saved.foldl applyEntry e

theorem applyEntry_title (e : PhotoEntry) (kv : String × Int) :
    (applyEntry e kv).title = e.title := by
  by_cases h : e.title = kv.1 <;> simp [applyEntry, h]

theorem applySaved_title (saved : List (String × Int)) (e : PhotoEntry) :
    (applySaved saved e).title = e.title := by
  induction saved generalizing e with
  | nil => rfl
  | cons kv rest ih =>
    show (applySaved rest (applyEntry e kv)).title = e.title
    rw [ih, applyEntry_title]

theorem restoreOne_title (its : List PhotoEntry) (t : String) (v : Int) :
    (restoreOne its t v).map PhotoEntry.title = its.map PhotoEntry.title := by
  induction its with
  | nil => rfl
  | cons e rest ih =>
    by_cases h : e.title = t <;> simp [restoreOne, h, ih]

/-- With pairwise-distinct titles, updating the first match equals a
pointwise update (there is at most one match). -/
theorem restoreOne_eq_map (its : List PhotoEntry) (t : String) (v : Int)
    (h : (its.map PhotoEntry.title).Nodup) :
    restoreOne its t v = its.map (fun e => applyEntry e (t, v)) := by
  induction its with
  | nil => rfl
  | cons e rest ih =>
    simp only [List.map_cons, List.nodup_cons] at h
    obtain ⟨hnot, hrest⟩ := h
    by_cases he : e.title = t
    · have hnt : ∀ x ∈ rest, x.title ≠ t := by
        intro x hx heq
        apply hnot
        rw [he, ← heq]
        exact List.mem_map_of_mem _ hx
      have hmap : rest.map (fun x => applyEntry x (t, v)) = rest := by
        have h1 : rest.map (fun x => applyEntry x (t, v)) = rest.map id :=
          List.map_congr_left (fun x hx => by simp [applyEntry, hnt x hx])
        simpa using h1
      simp only [restoreOne, if_pos he, List.map_cons, hmap]
      rw [show applyEntry e (t, v) = { e with likesText := mkLikesText v } from by
        simp [applyEntry, he]]
    · simp [restoreOne, he, applyEntry, ih hrest]

/-- With pairwise-distinct titles the restore fold is a pointwise map. -/
theorem restoreLikes_eq_map (saved : List (String × Int)) (its : List PhotoEntry)
    (h : (its.map PhotoEntry.title).Nodup) :
    restoreLikes saved its = its.map (applySaved saved) := by
  induction saved generalizing its with
  | nil =>
    rw [show applySaved [] = id from funext (fun e => rfl), List.map_id]
    rfl
  | cons kv rest ih =>
    show restoreLikes rest (restoreOne its kv.1 kv.2) = _
    have htitles : ((restoreOne its kv.1 kv.2).map PhotoEntry.title).Nodup := by
      rw [restoreOne_title]; exact h
    rw [ih _ htitles, restoreOne_eq_map its kv.1 kv.2 h, List.map_map]
    rfl

/-- An entry whose title is absent from the saved map passes through the
per-entry fold unchanged. -/
theorem applySaved_of_not_mem (saved : List (String × Int)) (e : PhotoEntry)
    (h : e.title ∉ saved.map Prod.fst) : applySaved saved e = e := by
  induction saved with
  | nil => rfl
  | cons kv rest ih =>
    simp only [List.map_cons, List.mem_cons, not_or] at h
    show applySaved rest (applyEntry e kv) = e
    rw [show applyEntry e kv = e from by simp [applyEntry, h.1], ih h.2]

/-- Per-entry correctness of the restore fold: a key present in a
duplicate-free saved map ends up displayed. -/
theorem applySaved_parse (saved : List (String × Int)) (e : PhotoEntry)
    (hkeys : (saved.map Prod.fst).Nodup) (v : Int)
    (hv : lookupLikes saved e.title = some v) :
    parseIntJS (applySaved saved e).likesText = some v := by
  induction saved generalizing e with
  | nil => simp [lookupLikes] at hv
  | cons kv rest ih =>
    simp only [List.map_cons, List.nodup_cons] at hkeys
    obtain ⟨hnot, hrest⟩ := hkeys
    show parseIntJS (applySaved rest (applyEntry e kv)).likesText = some v
    by_cases hk : kv.1 = e.title
    · have hv0 : v = kv.2 := by simp [lookupLikes, hk] at hv; omega
      have he : applyEntry e kv = { e with likesText := mkLikesText kv.2 } := by
        simp [applyEntry, hk.symm]
      have hout : applySaved rest (applyEntry e kv) = applyEntry e kv := by
        apply applySaved_of_not_mem
        rw [he]
        show e.title ∉ rest.map Prod.fst
        rw [← hk]
        exact hnot
      rw [hout, he, hv0]
      exact parseIntJS_mkLikesText kv.2
    · have hk2 : ¬ e.title = kv.1 := fun h => hk h.symm
      have he : applyEntry e kv = e := by
        simp [applyEntry, hk2]
      rw [he]
      apply ih e hrest
      simpa [lookupLikes, hk] using hv

/-! ## Helper lemmas: theme state -/

theorem jsOrString_light_ne_empty (o : Option String) : jsOrString o "light" ≠ "" := by
  match o with
  | none => simp [jsOrString]
  | some s =>
    by_cases h : s = "" <;> simp [jsOrString, h]

theorem jsTruthy_themeStep (st : ThemeState) (e : ThemeEvent)
    (h : jsTruthy st.stored = true) : jsTruthy (themeStep st e).stored = true := by
  match e with
  | .toggleClick =>
    show jsTruthy (toggleTheme st).stored = true
    by_cases hc : st.current = "dark" <;> simp [toggleTheme, applyTheme, hc, jsTruthy]
  | .mediaChange m =>
    simp [themeStep, h]

theorem jsTruthy_themeRun (stored0 : Option String) (sys : Bool) (evs : List ThemeEvent) :
    jsTruthy (themeRun stored0 sys evs).stored = true := by
  have hinit : jsTruthy (themeManagerInit stored0 sys).stored = true := by
    simp [themeManagerInit, applyTheme, jsTruthy, jsOrString_light_ne_empty stored0]
  rw [themeRun]
  generalize themeManagerInit stored0 sys = st at hinit ⊢
  induction evs generalizing st with
  | nil => exact hinit
  | cons e evs ih => exact ih _ (jsTruthy_themeStep st e hinit)

/-! ## Claim theorems -/

/-- C1 counterexample: a fully valid file (5-byte PNG, type in the
allow-list, size under 10 MiB) whose `FileReader` read fails does *not*
set the placeholder's image source — the handler reports
`"Failed to read file. Please try again."` and paints nothing, so
"valid file ⟹ upload succeeds and sets the image source" fails as
stated. -/
theorem upload_read_failure_counterexample :
    validPick (.chosen ⟨"image/png", 5, "bytes"⟩) = true ∧
      (handlePhotoUpload ⟨none, none, none, "Click to upload", none⟩
          (.chosen ⟨"image/png", 5, "bytes"⟩) .failure).1.backgroundImage = none ∧
      (handlePhotoUpload ⟨none, none, none, "Click to upload", none⟩
          (.chosen ⟨"image/png", 5, "bytes"⟩) .failure).2 =
        some "Failed to read file. Please try again." := by
  decide

/-- C1 amended: a file whose type is in the allow-list and whose size is
at most 10 MiB (boundary inclusive) uploads successfully and paints the
data URI as the placeholder's image source *provided the file read
succeeds*; when the read fails, a descriptive error is reported and the
placeholder is unchanged; on a type/size violation, a missing file, or a
cancelled picker, an error message is reported and the placeholder is
unchanged whatever the read would have done. -/
theorem upload_validation_amended :
    (∀ (p : Placeholder) (f : JFile),
        allowedTypes.contains f.type = true → f.size ≤ maxSize →
          handlePhotoUpload p (.chosen f) .success =
            (displayUploadedPhoto p (readAsDataURL f), none)) ∧
    (∀ (p : Placeholder) (f : JFile),
        allowedTypes.contains f.type = true → f.size ≤ maxSize →
          handlePhotoUpload p (.chosen f) .failure =
            (p, some "Failed to read file. Please try again.")) ∧
    (∀ (p : Placeholder) (pick : PickerResult) (read : ReadOutcome),
        validPick pick = false →
          (handlePhotoUpload p pick read).1 = p ∧
            (handlePhotoUpload p pick read).2.isSome = true) := by
  refine ⟨?_, ?_, ?_⟩
  · intro p f htype hsize
    have ht : f.type ∈ allowedTypes := by simpa using htype
    simp [handlePhotoUpload, validateImageFile, ht, Nat.not_lt.mpr hsize]
  · intro p f htype hsize
    have ht : f.type ∈ allowedTypes := by simpa using htype
    simp [handlePhotoUpload, validateImageFile, ht, Nat.not_lt.mpr hsize]
  · intro p pick read hinvalid
    match pick with
    | .noFile => exact ⟨rfl, rfl⟩
    | .cancelled => exact ⟨rfl, rfl⟩
    | .chosen f =>
      simp only [validPick, Bool.and_eq_false_iff] at hinvalid
      rcases hinvalid with htype | hsize
      · have ht : f.type ∉ allowedTypes := by simpa using htype
        simp [handlePhotoUpload, validateImageFile, ht]
      · by_cases htype : f.type ∈ allowedTypes
        · have hs : maxSize < f.size := by
            simp at hsize
            omega
          simp [handlePhotoUpload, validateImageFile, htype, hs]
        · simp [handlePhotoUpload, validateImageFile, htype]

/-- C1 witness: a 5-byte PNG whose read succeeds uploads and paints; the
same file with a failing read reports the read error and paints nothing;
`noFile` reports an error and mutates nothing. -/
theorem upload_validation_amended_witness :
    (handlePhotoUpload ⟨none, none, none, "Click to upload", none⟩
        (.chosen ⟨"image/png", 5, "bytes"⟩) .success =
      (displayUploadedPhoto ⟨none, none, none, "Click to upload", none⟩
        (readAsDataURL ⟨"image/png", 5, "bytes"⟩), none)) ∧
    (handlePhotoUpload ⟨none, none, none, "Click to upload", none⟩
        (.chosen ⟨"image/png", 5, "bytes"⟩) .failure =
      (⟨none, none, none, "Click to upload", none⟩,
        some "Failed to read file. Please try again.")) ∧
    ((handlePhotoUpload ⟨none, none, none, "Click to upload", none⟩ .noFile .success).1 =
        ⟨none, none, none, "Click to upload", none⟩ ∧
      (handlePhotoUpload ⟨none, none, none, "Click to upload", none⟩
          .noFile .success).2.isSome = true) :=
  ⟨upload_validation_amended.1 ⟨none, none, none, "Click to upload", none⟩
      ⟨"image/png", 5, "bytes"⟩ (by decide) (by decide),
    upload_validation_amended.2.1 ⟨none, none, none, "Click to upload", none⟩
      ⟨"image/png", 5, "bytes"⟩ (by decide) (by decide),
    upload_validation_amended.2.2 ⟨none, none, none, "Click to upload", none⟩
      .noFile .success (by decide)⟩

/-- C5 counterexample: with no persisted theme flag and the system
preferring dark, initialization applies `"light"`, not the system
preference — the constructor never consults the media query. -/
theorem theme_default_counterexample :
    (themeManagerInit none true).applied = some "light" ∧
      (themeManagerInit none true).applied ≠ some "dark" := by
  constructor <;> decide

/-- C5 amended: when no theme flag is persisted (or an empty one is),
initialization applies `"light"` regardless of the system color-scheme
preference; when a non-empty flag is persisted, the persisted value is
applied. -/
theorem theme_default_amended (stored0 : Option String) (sys : Bool) :
    (themeManagerInit stored0 sys).applied = some (jsOrString stored0 "light") ∧
      (themeManagerInit stored0 sys).current = jsOrString stored0 "light" := by
  exact ⟨rfl, rfl⟩

/-- C6: toggling the theme twice restores the original theme, for a
current theme of `"light"` or `"dark"`. -/
theorem toggle_involution (st : ThemeState)
    (h : st.current = "light" ∨ st.current = "dark") :
    (toggleTheme (toggleTheme st)).current = st.current := by
  rcases h with h | h <;> simp [toggleTheme, applyTheme, h]

/-- C6 witness: toggling twice from `"light"` ends at `"light"`. -/
theorem toggle_involution_witness :
    (toggleTheme (toggleTheme ⟨some "light", "light", some "light"⟩)).current = "light" :=
  toggle_involution ⟨some "light", "light", some "light"⟩ (Or.inl rfl)

/-- C9: after initialization, the system preference-change listener is
permanently inert: `applyTheme` persisted a theme during init and on
every later apply, so in every reachable state the listener's
no-persisted-theme guard fails and a `mediaChange` event leaves the
state (in particular the applied theme) unchanged. -/
theorem mediaChange_inert (stored0 : Option String) (sys : Bool)
    (evs : List ThemeEvent) (m : Bool) :
    themeStep (themeRun stored0 sys evs) (.mediaChange m) = themeRun stored0 sys evs := by
  simp [themeStep, jsTruthy_themeRun stored0 sys evs]

/-- C2: after any sequence of `filterPhotos` calls ending in `f`, the
page state is exactly that of a single `filterPhotos f` call, and an
entry is visible (not hidden) iff `f = "all"` or its category is `f`. -/
theorem filter_visibility_spec (items : List PhotoItem) (fs : List String) (f : String) :
    filterSeq (fs ++ [f]) items = filterPhotos f items ∧
      ∀ it ∈ filterPhotos f items, (it.hidden = false ↔ (f = "all" ∨ it.category = f)) := by
  constructor
  · rw [filterSeq, List.foldl_append]
    exact filterPhotos_filterSeq f fs items
  · intro it hit
    obtain ⟨x, _, hx⟩ := List.mem_map.mp hit
    subst hx
    by_cases h : f = "all" ∨ x.category = f
    · simp [filterOne, h]
    · simp [filterOne, h]

/-- C2 witness: after `filterPhotos "portrait"`, the portrait entry is
visible, and the visibility equivalence holds for it. -/
theorem filter_visibility_spec_witness :
    ((⟨"portrait", false, "fadeInUp 0.5s ease forwards"⟩ : PhotoItem).hidden = false ↔
      ("portrait" = "all" ∨
        (⟨"portrait", false, "fadeInUp 0.5s ease forwards"⟩ : PhotoItem).category = "portrait")) :=
  (filter_visibility_spec [⟨"portrait", true, ""⟩] [] "portrait").2
    ⟨"portrait", false, "fadeInUp 0.5s ease forwards"⟩ (by decide)

/-- C3: each like action adds exactly 1 to the displayed count (reading
a non-numeric display as 0, per `parseInt(...) || 0`), persists exactly
the new displayed count under the photo's title, and across any sequence
of like actions the displayed count is monotonically non-decreasing. -/
theorem like_increment_spec (st : LikeState) (n : Nat) :
    parseIntJS (handleLike st).likesText =
        some (jsOrZero (parseIntJS st.likesText) + 1) ∧
      lookupLikes (handleLike st).storage st.title =
        some (jsOrZero (parseIntJS st.likesText) + 1) ∧
      jsOrZero (parseIntJS ((handleLike^[n]) st).likesText) ≤
        jsOrZero (parseIntJS ((handleLike^[n + 1]) st).likesText) := by
  refine ⟨parseIntJS_mkLikesText _, lookupLikes_setLikes_self _ _ _, ?_⟩
  rw [Function.iterate_succ_apply']
  rw [show parseIntJS (handleLike ((handleLike^[n]) st)).likesText =
      some (jsOrZero (parseIntJS ((handleLike^[n]) st).likesText) + 1) from
    parseIntJS_mkLikesText _]
  rw [jsOrZero_some]
  omega

/-- C10: when the displayed like text does not parse as an integer
(`parseInt` yields `NaN`), a like action treats the count as 0: the
display becomes `"1 likes"` and the persisted entry becomes 1. -/
theorem like_nan_spec (st : LikeState) (h : parseIntJS st.likesText = none) :
    (handleLike st).likesText = "1 likes" ∧
      lookupLikes (handleLike st).storage st.title = some 1 := by
  constructor
  · show mkLikesText (jsOrZero (parseIntJS st.likesText) + 1) = "1 likes"
    rw [h]
    rfl
  · show lookupLikes (setLikes st.storage st.title (jsOrZero (parseIntJS st.likesText) + 1))
        st.title = some 1
    rw [h]
    exact lookupLikes_setLikes_self st.storage st.title 1

/-- C10 witness: liking a photo whose likes text is empty displays
`"1 likes"` and persists 1. -/
theorem like_nan_spec_witness :
    (handleLike ⟨"", "Sunset", []⟩).likesText = "1 likes" ∧
      lookupLikes (handleLike ⟨"", "Sunset", []⟩).storage "Sunset" = some 1 :=
  like_nan_spec ⟨"", "Sunset", []⟩ (by decide)

/-- C4 counterexample: with two entries sharing the title `"Sunset"`,
restoring the map `{"Sunset": 4}` updates only the first match, so the
second entry whose title appears in the map still displays 3, not the
persisted 4 — the claim fails as stated. -/
theorem restore_roundtrip_counterexample :
    ∃ e ∈ restoreLikes [("Sunset", 4)]
        [⟨"Sunset", "3 likes"⟩, ⟨"Sunset", "3 likes"⟩],
      lookupLikes [("Sunset", 4)] e.title = some 4 ∧
        parseIntJS e.likesText ≠ some 4 := by
  decide

/-- C4 amended: provided the page's entry titles are pairwise distinct
(the title is the identity key) and the persisted map's keys are
pairwise distinct (a JSON object), after the reload restore every entry
whose title appears in the map displays exactly the persisted count. -/
theorem restore_roundtrip_amended (saved : List (String × Int)) (items : List PhotoEntry)
    (htitles : (items.map PhotoEntry.title).Nodup)
    (hkeys : (saved.map Prod.fst).Nodup) :
    ∀ e ∈ restoreLikes saved items, ∀ v : Int,
      lookupLikes saved e.title = some v → parseIntJS e.likesText = some v := by
  intro e he v hv
  rw [restoreLikes_eq_map saved items htitles] at he
  obtain ⟨x, _, hx⟩ := List.mem_map.mp he
  subst hx
  apply applySaved_parse saved x hkeys v
  rwa [applySaved_title] at hv

/-- C4 witness: one entry titled `"Sunset"`, map `{"Sunset": 4}`; after
restore the entry displays 4. -/
theorem restore_roundtrip_amended_witness :
    parseIntJS (PhotoEntry.mk "Sunset" "4 likes").likesText = some 4 :=
  restore_roundtrip_amended [("Sunset", 4)] [⟨"Sunset", "3 likes"⟩]
    (by decide) (by decide) ⟨"Sunset", "4 likes"⟩ (by decide) 4 (by decide)

/-- C7 counterexample: a click on the explicit close control bubbles to
the backdrop's listener as well, so `closeModal` executes twice for that
one open instance — not exactly once. -/
theorem modal_close_counterexample :
    closeFirings (.clickAt .closeBtn) = 2 ∧ closeFirings (.clickAt .closeBtn) ≠ 1 := by
  decide

/-- C7 amended: the overlay closes on the explicit close control, on a
backdrop click, and on Escape when keyboard focus is inside the modal
subtree; a backdrop click or a delivered Escape executes the close
routine exactly once, but a click on the explicit close control executes
it twice (the click bubbles to the backdrop listener); after opening
then closing by any of these, no overlay element remains. -/
theorem modal_close_amended :
    closeFirings (.clickAt .closeBtn) = 2 ∧
      closeFirings (.clickAt .backdrop) = 1 ∧
      (∀ f : MNode, closeFirings (.escapeKey (some f)) = 1) ∧
      (∀ a : CloseAction, 1 ≤ closeFirings a →
        (afterCloseAction a).overlayPresent = false) := by
  refine ⟨by decide, by decide, ?_, ?_⟩
  · intro f
    cases f <;> decide
  · intro a
    match a with
    | .clickAt t => cases t <;> decide
    | .escapeKey none => decide
    | .escapeKey (some f) => cases f <;> decide

/-- C7 witness: a backdrop click closes the freshly opened modal and no
overlay remains. -/
theorem modal_close_amended_witness :
    (afterCloseAction (.clickAt .backdrop)).overlayPresent = false :=
  modal_close_amended.2.2.2 (.clickAt .backdrop) (by decide)

/-- C8 counterexample: a 600×600 image with `maxWidth = 1200` gets ratio
`min(1200/600, 1200/600) = 2 > 1` — an upscale, so the ratio is not a
downscale for every image. -/
theorem optimize_downscale_counterexample :
    optimizeRatio ⟨600, 600⟩ 1200 = 2 ∧ ¬ optimizeRatio ⟨600, 600⟩ 1200 ≤ 1 := by
  constructor <;> norm_num [optimizeRatio]

/-- C8 amended: for positive dimensions, `optimizeImage` scales both
dimensions uniformly by `min(maxWidth/w, maxWidth/h)`, which bounds both
output dimensions by `maxWidth` and is a downscale (ratio ≤ 1) exactly
when the larger dimension is at least `maxWidth`; the output is a JPEG
blob at the given quality. -/
theorem optimize_bounds_amended (img : DecodedImage) (maxWidth quality : ℚ)
    (hw : 0 < img.width) (hh : 0 < img.height) :
    (optimizeImage img maxWidth quality).width = img.width * optimizeRatio img maxWidth ∧
      (optimizeImage img maxWidth quality).height = img.height * optimizeRatio img maxWidth ∧
      (optimizeImage img maxWidth quality).width ≤ maxWidth ∧
      (optimizeImage img maxWidth quality).height ≤ maxWidth ∧
      (optimizeImage img maxWidth quality).mimeType = "image/jpeg" ∧
      (optimizeImage img maxWidth quality).quality = quality ∧
      (optimizeRatio img maxWidth ≤ 1 ↔ maxWidth ≤ max img.width img.height) := by
  refine ⟨rfl, rfl, ?_, ?_, rfl, rfl, ?_⟩
  · show img.width * optimizeRatio img maxWidth ≤ maxWidth
    calc img.width * optimizeRatio img maxWidth
        ≤ img.width * (maxWidth / img.width) :=
          mul_le_mul_of_nonneg_left (min_le_left _ _) hw.le
      _ = maxWidth := mul_div_cancel₀ maxWidth hw.ne'
  · show img.height * optimizeRatio img maxWidth ≤ maxWidth
    calc img.height * optimizeRatio img maxWidth
        ≤ img.height * (maxWidth / img.height) :=
          mul_le_mul_of_nonneg_left (min_le_right _ _) hh.le
      _ = maxWidth := mul_div_cancel₀ maxWidth hh.ne'
  · constructor
    · intro hle
      by_contra hgt
      push_neg at hgt
      have h1 : (1 : ℚ) < maxWidth / img.width :=
        (one_lt_div hw).mpr (lt_of_le_of_lt (le_max_left _ _) hgt)
      have h2 : (1 : ℚ) < maxWidth / img.height :=
        (one_lt_div hh).mpr (lt_of_le_of_lt (le_max_right _ _) hgt)
      exact absurd hle (not_le.mpr (lt_min h1 h2))
    · intro hmax
      rcases max_cases img.width img.height with ⟨hm, _⟩ | ⟨hm, _⟩
      · calc optimizeRatio img maxWidth ≤ maxWidth / img.width := min_le_left _ _
          _ ≤ 1 := (div_le_one hw).mpr (hm ▸ hmax)
      · calc optimizeRatio img maxWidth ≤ maxWidth / img.height := min_le_right _ _
          _ ≤ 1 := (div_le_one hh).mpr (hm ▸ hmax)

/-- C8 witness: a 1600×1200 image at `maxWidth = 1200` has its width
bounded by 1200. -/
theorem optimize_bounds_amended_witness :
    (optimizeImage ⟨1600, 1200⟩ 1200 (4/5)).width ≤ 1200 :=
  (optimize_bounds_amended ⟨1600, 1200⟩ 1200 (4/5) (by norm_num) (by norm_num)).2.2.1

end ShutterThoughts
